import Mathlib

/-!
Verification of the Shakti multi-agent content-safety assistant
(agent_system.py).  The Python source is shallowly embedded: every agent
is a pure function from its input text to a JSON-shaped value, Python
dictionaries are association lists in insertion order, Python exceptions
are an Except layer, and the wall clock is an explicit parameter.
-/

/-- Python str.lower for the ASCII data handled by the program. -/
def pyLower (s : String) : String := ⟨s.data.map Char.toLower⟩

/-- Python substring membership test (needle in hay). -/
def strContainsSub (hay needle : String) : Bool :=
  hay.data.tails.any (fun t => needle.data.isPrefixOf t)

/-- Lookup in a Python dictionary represented as an association list in
insertion order.  Keys are unique in such a list, so the first hit is the
binding. -/
def lookupStr {α : Type} : List (String × α) → String → Option α
  | [], _ => none
  | (k', v) :: t, k => if k' = k then some v else lookupStr t k

/-- Python dictionary assignment d[k] = v: replaces the value in place when
the key is present, otherwise appends the binding at the end. -/
def dictSet {α : Type} (l : List (String × α)) (k : String) (v : α) : List (String × α) :=
  if (lookupStr l k).isSome then l.map (fun kv => if kv.1 = k then (k, v) else kv)
  else l ++ [(k, v)]

/-- Maximum of a list of naturals, 0 for the empty list. -/
def listMax : List Nat → Nat
  | [] => 0
  | a :: t => max a (listMax t)

/-- JSON-shaped Python values as produced and consumed by the agents.
Float literals (only the hard-coded GPS coordinates and the wall-clock
reading) are carried by their decimal source text; the program never
computes with them. -/
inductive JVal where
  | s (v : String)
  | n (v : Int)
  | b (v : Bool)
  | flt (lit : String)
  | arr (vs : List JVal)
  | obj (fields : List (String × JVal))
  | null

/-- Python dict.get(k): some value when the key is present, none otherwise.
The modelled code only applies it to dictionaries. -/
def JVal.get : JVal → String → Option JVal
  | .obj fs, k => lookupStr fs k
  | _, _ => none

/-- Python dict assignment j[k] = v on a JSON object. -/
def JVal.set : JVal → String → JVal → JVal
  | .obj fs, k, v => .obj (dictSet fs k v)
  | j, _, _ => j

/-- Python truthiness of the modelled values.  The only float literals in
the program are nonzero constants. -/
def JVal.truthy : JVal → Bool
  | .s v => decide (v ≠ "")
  | .n v => decide (v ≠ 0)
  | .b v => v
  | .flt _ => true
  | .arr vs => !vs.isEmpty
  | .obj fs => !fs.isEmpty
  | .null => false

/-- Escape for json.dumps; the dumped strings of this program contain no
quote, backslash, control or non-ASCII characters, so only the two
structural escapes are modelled. -/
def jsonEscapeChar (c : Char) : String :=
  if c = '"' then "\\\"" else if c = '\\' then "\\\\" else String.singleton c

def jsonEscape (s : String) : String := String.join (s.data.map jsonEscapeChar)

mutual

/-- Python json.dumps with its default separators. -/
def JVal.dump : JVal → String
  | .s v => "\"" ++ jsonEscape v ++ "\""
  | .n v => toString v
  | .b v => if v then "true" else "false"
  | .flt lit => lit
  | .null => "null"
  | .arr vs => "[" ++ dumpSeq vs ++ "]"
  | .obj fs => "\x7b" ++ dumpFields fs ++ "\x7d"

def dumpSeq : List JVal → String
  | [] => ""
  | [v] => JVal.dump v
  | v :: w :: rest => JVal.dump v ++ ", " ++ dumpSeq (w :: rest)

def dumpFields : List (String × JVal) → String
  | [] => ""
  | [(k, v)] => "\"" ++ jsonEscape k ++ "\": " ++ JVal.dump v
  | (k, v) :: f :: rest =>
      "\"" ++ jsonEscape k ++ "\": " ++ JVal.dump v ++ ", " ++ dumpFields (f :: rest)

end

mutual

/-- Python str() of a parsed-JSON value (dict repr); the strings involved
contain no single quote, so repr always picks single-quoted form. -/
def JVal.pyRepr : JVal → String
  | .s v => "\'" ++ v ++ "\'"
  | .n v => toString v
  | .b v => if v then "True" else "False"
  | .flt lit => lit
  | .null => "None"
  | .arr vs => "[" ++ reprSeq vs ++ "]"
  | .obj fs => "\x7b" ++ reprFields fs ++ "\x7d"

def reprSeq : List JVal → String
  | [] => ""
  | [v] => JVal.pyRepr v
  | v :: w :: rest => JVal.pyRepr v ++ ", " ++ reprSeq (w :: rest)

def reprFields : List (String × JVal) → String
  | [] => ""
  | [(k, v)] => "\'" ++ k ++ "\': " ++ JVal.pyRepr v
  | (k, v) :: f :: rest => "\'" ++ k ++ "\': " ++ JVal.pyRepr v ++ ", " ++ reprFields (f :: rest)

end

/-- Python None or a dictionary value, as stored by results[k] = d.get(k). -/
def optJ : Option JVal → JVal
  | some v => v
  | none => .null

/-- Test result.get(k) == target for a string target, as Python == with
None-or-value on the left. -/
def jGetEqStr (j : JVal) (k target : String) : Bool :=
  match j.get k with
  | some (.s v) => v = target
  | _ => false

/-- Read a string field with a default, as d.get(k, dflt).  In the modelled
outputs the key, when present, always holds a string. -/
def getStrD (j : JVal) (k dflt : String) : String :=
  match j.get k with
  | some (.s v) => v
  | _ => dflt

/-- Agent input values: the program feeds its agents strings and
dictionaries, and the malformed-input claims also exercise integers and
None. -/
inductive PyVal where
  | pyStr (s : String)
  | pyInt (n : Int)
  | pyNone
  | pyDict (fields : List (String × JVal))

/-- Python runtime errors that escape an agent call. -/
inductive PyExc where
  | typeError (msg : String)
deriving DecidableEq

/-- Message of the TypeError raised by slicing a non-subscriptable value. -/
def intSliceMsg : String := "\'int\' object is not subscriptable"

def noneSliceMsg : String := "\'NoneType\' object is not subscriptable"

/-- Slicing a dict raises TypeError: unhashable type: slice. -/
def dictSliceMsg : String := "unhashable type: \'slice\'"

/-- Message of the AttributeError raised by calling .lower() on an int. -/
def pyIntLowerMsg : String := "\'int\' object has no attribute \'lower\'"

def pyNoneLowerMsg : String := "\'NoneType\' object has no attribute \'lower\'"

/-- Python falsiness of the api_key memory slot (absent or empty string). -/
def pyFalsyKey : Option String → Bool
  | none => true
  | some s => decide (s = "")

/-- BaseAgent._call_llm_api: both branches of the api_key test invoke the
agent mock on the user text; the system prompt and the key are ignored. -/
def callLlmApi {α : Type} (mock : String → α) (_systemText : String)
    (userText : String) (apiKey : Option String) : α :=
  if pyFalsyKey apiKey then mock userText else mock userText

/-- AgentOrchestrator.run_chain: walk the requested agent names in order,
running each registered agent on the input text and storing its output in
the results dictionary; unknown names are only logged.  The orchestrator
state is the registered-agents dictionary; agents are modelled as pure
functions of the input text (their output ignores the context, see the
api-key independence results).  The timestamped context trace is log-only
bookkeeping that no result depends on and is not modelled. -/
def runChain {ρ : Type} (agents : List (String × (String → ρ)))
    (inputText : String) (agentNames : List String) : List (String × ρ) :=
  agentNames.foldl
    (fun results name =>
      match lookupStr agents name with
      | some agent => dictSet results name (agent inputText)
      | none => results)
    []

/-- AgentOrchestrator.run_parallel: logs a message and then just delegates
to run_chain (the script is synchronous). -/
def runParallel {ρ : Type} (agents : List (String × (String → ρ)))
    (inputText : String) (agentNames : List String) : List (String × ρ) :=
  runChain agents inputText agentNames

/-- Specification of the chain from the spec text: map each registered
requested agent name, in the given order, to the output of its agent. -/
def runChainSpec {ρ : Type} (agents : List (String × (String → ρ)))
    (inputText : String) (agentNames : List String) : List (String × ρ) :=
  agentNames.filterMap (fun name =>
    (lookupStr agents name).map (fun agent => (name, agent inputText)))

/-- One record of the ThreatDetectionAgent internal knowledge base. -/
structure KBRecord where
  key : String
  keywords : List String
  category : String
  severity : Nat
  action : String
deriving DecidableEq

/-- The deepfake record of ThreatDetectionAgent.knowledge_base. -/
def deepfakeEntry : KBRecord :=
  { key := "deepfake",
    keywords := ["fake images", "ai generated", "deepfake", "face swap", "nude",
                 "morph", "inappropriate images", "fake photos", "created fake"],
    category := "Deepfake / Image Abuse",
    severity := 5,
    action := "Report to platform immediately. File complaint at Cyber Crime portal. Do not delete evidence." }

def domesticAbuseEntry : KBRecord :=
  { key := "domestic_abuse",
    keywords := ["husband", "wife", "partner", "beat", "hit", "slap", "control",
                 "money", "salary", "passport", "prisoner", "allow", "forbid"],
    category := "Domestic Abuse / Coercive Control",
    severity := 4,
    action := "Contact domestic abuse helpline. Secure documents. Plan exit strategy." }

def blackmailEntry : KBRecord :=
  { key := "blackmail",
    keywords := ["photos", "video", "leak", "viral", "expose", "internet",
                 "send money", "pay me", "release"],
    category := "Blackmail / Sextortion",
    severity := 4,
    action := "Do not pay. Do not delete chats. Report to Cyber Crime." }

def stalkingEntry : KBRecord :=
  { key := "stalking",
    keywords := ["follow", "watch", "outside", "track", "everywhere", "saw you",
                 "know where you live"],
    category := "Stalking / Surveillance",
    severity := 4,
    action := "Vary routines. Document evidence. Contact police." }

def sexualHarassmentEntry : KBRecord :=
  { key := "sexual_harassment",
    keywords := ["touch", "kiss", "body", "sexy", "hot", "nude", "naked",
                 "send pics", "rape", "force", "molest"],
    category := "Sexual Harassment / Assault",
    severity := 5,
    action := "Go to safe place. Call emergency services." }

def violenceEntry : KBRecord :=
  { key := "violence",
    keywords := ["kill", "die", "murder", "shoot", "stab", "burn", "acid",
                 "hurt", "attack", "destroy"],
    category := "Violence / Physical Harm",
    severity := 5,
    action := "Contact law enforcement immediately. Ensure physical safety." }

/-- ThreatDetectionAgent.knowledge_base, in its Python insertion order. -/
def knowledgeBase : List KBRecord :=
  [deepfakeEntry, domesticAbuseEntry, blackmailEntry, stalkingEntry,
   sexualHarassmentEntry, violenceEntry]

/-- Number of keywords of a record that occur in the (already lowered)
query; the source counts them with an inner loop. -/
def matchedCount (query : String) (r : KBRecord) : Nat :=
  (r.keywords.filter (fun word => strContainsSub query word)).length

/-- The two dictionary shapes that _google_search_simulation can put under
the result key: a knowledge-base record, or the hard-coded heuristic
record (which has no keywords entry). -/
inductive SearchHit where
  | kb (r : KBRecord)
  | heur (category : String) (severity : Nat) (action : String)
deriving DecidableEq

def SearchHit.category : SearchHit → String
  | .kb r => r.category
  | .heur c _ _ => c

def SearchHit.severity : SearchHit → Nat
  | .kb r => r.severity
  | .heur _ sev _ => sev

def SearchHit.action : SearchHit → String
  | .kb r => r.action
  | .heur _ _ a => a

/-- The heuristic fallback record of _google_search_simulation. -/
def heuristicHit : SearchHit :=
  .heur "Unclassified Suspicious Activity" 3
    "Situation unclear but suspicious. Proceed with caution."

/-- Dictionary returned by _google_search_simulation. -/
structure SearchResult where
  found : Bool
  source : String
  result : Option SearchHit
deriving DecidableEq

def suspiciousWords : List String :=
  ["danger", "scared", "help", "police", "emergency", "threat"]

/-- Accumulator update of the knowledge-base scan: keep the best match so
far, replacing it only on a strictly larger score. -/
def kbStep (query : String) (acc : Option KBRecord × Nat) (r : KBRecord) :
    Option KBRecord × Nat :=
  let score := matchedCount query r
  if score > acc.2 then (some r, score) else acc

/-- ThreatDetectionAgent._google_search_simulation. -/
def googleSearchSimulation (query0 : String) : SearchResult :=
  let query := pyLower query0
  let best := knowledgeBase.foldl (kbStep query) (none, 0)
  if best.1.isSome && best.2 > 0 then
    { found := true, source := "Knowledge Base Match", result := best.1.map SearchHit.kb }
  else if suspiciousWords.any (fun w => strContainsSub query w) then
    { found := true, source := "Heuristic Analysis", result := some heuristicHit }
  else
    { found := false, source := "Web Search", result := none }

/-- Specification, from the spec text, of the record the knowledge-base
scan should return: the earliest record attaining the maximal number of
matched keywords, provided some keyword matched at all. -/
def bestKBMatchSpec (query : String) : Option KBRecord :=
  let m := listMax (knowledgeBase.map (matchedCount query))
  if m = 0 then none
  else knowledgeBase.find? (fun r => matchedCount query r = m)


/-- Default safe response of ThreatDetectionAgent._mock_llm_call. -/
def threatDefaultObj : JVal := .obj [
  ("exact_threat_category", .s "None"),
  ("severity", .n 1),
  ("explanation", .s "No clear threat detected in the text after scanning databases."),
  ("recommended_action", .s "No action needed.")]

/-- ThreatDetectionAgent._mock_llm_call: run the search simulation and
serialise the hit, or the default safe response.  The json.dumps in the
source followed by the json.loads in process is the identity on these
dictionaries and is represented as such. -/
def threatMock (prompt : String) : JVal :=
  let searchResult := googleSearchSimulation prompt
  if searchResult.found then
    match searchResult.result with
    | some data => .obj [
        ("exact_threat_category", .s data.category),
        ("severity", .n data.severity),
        ("explanation", .s ("Detected via " ++ searchResult.source ++
          ": Found patterns matching \'" ++ data.category ++ "\'.")),
        ("recommended_action", .s data.action)]
    | none => threatDefaultObj
  else threatDefaultObj

/-- Error dictionary of ThreatDetectionAgent.process, with str(e). -/
def threatErrorResult (msg : String) : JVal := .obj [
  ("exact_threat_category", .s "Error"),
  ("severity", .n 0),
  ("explanation", .s msg),
  ("recommended_action", .s "Debug system.")]

/-- ThreatDetectionAgent.process on a string input: the markdown strip is
a no-op on the mock output and json.loads of the mock dump is the
identity, so the try block always succeeds. -/
def threatProcessStr (apiKey : Option String) (s : String) : JVal :=
  callLlmApi threatMock "" s apiKey

/-- ThreatDetectionAgent.process on an arbitrary input value.  The entry
log slices input_data[:50] BEFORE the try block, so any non-sliceable
input raises an uncaught TypeError. -/
def threatProcessPy (apiKey : Option String) : PyVal → Except PyExc JVal
  | .pyStr s => .ok (threatProcessStr apiKey s)
  | .pyInt _ => .error (.typeError intSliceMsg)
  | .pyNone => .error (.typeError noneSliceMsg)
  | .pyDict _ => .error (.typeError dictSliceMsg)

/-- ManipulationDetectionAgent._mock_llm_call. -/
def manipulationMock (prompt : String) : JVal :=
  let lowerPrompt := pyLower prompt
  let has := fun w => strContainsSub lowerPrompt w
  if has "soulmate" || has "destiny" || has "perfect" || has "love you" || has "only me" then
    .obj [("manipulation_flags", .arr [.s "Love Bombing", .s "Validation Farming"]),
          ("explanation", .s "Excessive flattery and intensity early in interaction."),
          ("trust_score", .n 30),
          ("recommended_action", .s "Proceed with caution. Verify if actions match words.")]
  else if has "crazy" || has "imagining" || has "sensitive" || has "overreacting" || has "your fault" then
    .obj [("manipulation_flags", .arr [.s "Gaslighting"]),
          ("explanation", .s "Attempting to make the user question their reality or feelings."),
          ("trust_score", .n 10),
          ("recommended_action", .s "Trust your instincts. Document interactions. Disengage if pattern continues.")]
  else if has "after all i did" || has "hurt me" || has "blame" || has "sorry" || has "promise" then
    .obj [("manipulation_flags", .arr [.s "Guilt-Tripping", .s "Emotional Manipulation"]),
          ("explanation", .s "Using guilt to control the user\'s actions."),
          ("trust_score", .n 20),
          ("recommended_action", .s "Set boundaries. Do not give in to guilt.")]
  else if has "leak" || has "expose" || has "viral" ||
      (has "share" && (has "nude" || has "private" || has "photo")) then
    .obj [("manipulation_flags", .arr [.s "Blackmail", .s "Coercion"]),
          ("explanation", .s "Threatening to expose private information to control behavior."),
          ("trust_score", .n 5),
          ("recommended_action", .s "This is blackmail. Do not comply. Report immediately.")]
  else if has "allow" || has "forbid" || has "wear" || has "talk to" || has "password" ||
      has "if you don\'t" || has "or else" then
    .obj [("manipulation_flags", .arr [.s "Controlling Tone", .s "Coercion"]),
          ("explanation", .s "Attempting to dictate user\'s behavior or choices."),
          ("trust_score", .n 15),
          ("recommended_action", .s "Assert independence. Recognize this as a red flag.")]
  else if has "trust me" || has "believe me" || has "secret" || has "between us" || has "don\'t tell" then
    .obj [("manipulation_flags", .arr [.s "Isolation/Secrecy"]),
          ("explanation", .s "Attempting to isolate the user or keep interactions secret."),
          ("trust_score", .n 25),
          ("recommended_action", .s "Do not keep secrets that make you uncomfortable. Talk to a trusted adult/friend.")]
  else
    .obj [("manipulation_flags", .arr []),
          ("explanation", .s "No obvious manipulation detected."),
          ("trust_score", .n 90),
          ("recommended_action", .s "Continue interaction normally.")]

/-- Error dictionary of ManipulationDetectionAgent.process. -/
def manipulationErrorResult (msg : String) : JVal := .obj [
  ("manipulation_flags", .arr [.s "Error"]),
  ("explanation", .s ("System error: " ++ msg)),
  ("trust_score", .n 0),
  ("recommended_action", .s "Debug system.")]

def manipulationProcessStr (apiKey : Option String) (s : String) : JVal :=
  callLlmApi manipulationMock "" s apiKey

/-- ManipulationDetectionAgent.process also slices input_data[:50] before
its try block. -/
def manipulationProcessPy (apiKey : Option String) : PyVal → Except PyExc JVal
  | .pyStr s => .ok (manipulationProcessStr apiKey s)
  | .pyInt _ => .error (.typeError intSliceMsg)
  | .pyNone => .error (.typeError noneSliceMsg)
  | .pyDict _ => .error (.typeError dictSliceMsg)

/-- RedFlagDetectionAgent._mock_llm_call. -/
def redFlagMock (prompt : String) : JVal :=
  let lowerPrompt := pyLower prompt
  let has := fun w => strContainsSub lowerPrompt w
  if has "secret" || has "don\'t tell" || has "special" then
    .obj [("lust_intent_score", .n 85),
          ("red_flag_level", .s "Red Forest"),
          ("example_lines", .arr [.s "Let\'s keep this our little secret", .s "You are special to me"])]
  else if has "touch" || has "kiss" || has "body" || has "nude" || has "naked" || has "send me" then
    .obj [("lust_intent_score", .n 75),
          ("red_flag_level", .s "Red"),
          ("example_lines", .arr [.s "I want to touch you", .s "Your body is amazing", .s "Send me photos"])]
  else if has "lonely" || has "understand you" then
    .obj [("lust_intent_score", .n 40),
          ("red_flag_level", .s "Yellow"),
          ("example_lines", .arr [.s "I know you\'re lonely", .s "Only I understand you"])]
  else
    .obj [("lust_intent_score", .n 5),
          ("red_flag_level", .s "Green"),
          ("example_lines", .arr [])]

/-- Error dictionary of RedFlagDetectionAgent.process. -/
def redFlagErrorResult (msg : String) : JVal := .obj [
  ("lust_intent_score", .n 0),
  ("red_flag_level", .s "Error"),
  ("example_lines", .arr [.s ("System error: " ++ msg)])]

def redFlagProcessStr (apiKey : Option String) (s : String) : JVal :=
  callLlmApi redFlagMock "" s apiKey

/-- RedFlagDetectionAgent.process also slices input_data[:50] before its
try block. -/
def redFlagProcessPy (apiKey : Option String) : PyVal → Except PyExc JVal
  | .pyStr s => .ok (redFlagProcessStr apiKey s)
  | .pyInt _ => .error (.typeError intSliceMsg)
  | .pyNone => .error (.typeError noneSliceMsg)
  | .pyDict _ => .error (.typeError dictSliceMsg)

/-- EvidenceCollectorAgent._mock_llm_call. -/
def evidenceMock (prompt : String) : JVal :=
  let lowerPrompt := pyLower prompt
  let has := fun w => strContainsSub lowerPrompt w
  if has "kill" then
    .obj [("timestamps", .arr [.s "2023-10-27 10:15 AM"]),
          ("classified_evidence_type", .s "Death Threat"),
          ("crime_category", .s "Criminal Threat / Assault"),
          ("summary_evidence_pack", .s "User received a direct death threat (\'I\'m going to kill you\').")]
  else if has "money" || has "photos" then
    .obj [("timestamps", .arr [.s "2023-10-27 10:20 AM"]),
          ("classified_evidence_type", .s "Blackmail / Extortion"),
          ("crime_category", .s "Extortion"),
          ("summary_evidence_pack", .s "User was coerced to pay money under threat of photo release.")]
  else if has "secret" then
    .obj [("timestamps", .arr [.s "2023-10-27 10:30 AM"]),
          ("classified_evidence_type", .s "Grooming"),
          ("crime_category", .s "Child Endangerment / Grooming"),
          ("summary_evidence_pack", .s "Adult user attempting to isolate minor with secrecy requests.")]
  else
    .obj [("timestamps", .arr []),
          ("classified_evidence_type", .s "None"),
          ("crime_category", .s "None"),
          ("summary_evidence_pack", .s "No actionable evidence found.")]

/-- Error dictionary of EvidenceCollectorAgent.process. -/
def evidenceErrorResult (msg : String) : JVal := .obj [
  ("timestamps", .arr []),
  ("classified_evidence_type", .s "Error"),
  ("crime_category", .s "System Error"),
  ("summary_evidence_pack", .s ("Failed to process: " ++ msg))]

def evidenceProcessStr (apiKey : Option String) (s : String) : JVal :=
  callLlmApi evidenceMock "" s apiKey

/-- EvidenceCollectorAgent.process: a dict input is json.dumps-ed first;
its entry log applies str() before slicing, so it never raises; an int or
None input fails inside the try block at .lower() and is converted to the
error dictionary. -/
def evidenceProcessPy (apiKey : Option String) : PyVal → Except PyExc JVal
  | .pyStr s => .ok (evidenceProcessStr apiKey s)
  | .pyDict fs => .ok (evidenceProcessStr apiKey (JVal.obj fs).dump)
  | .pyInt _ => .ok (evidenceErrorResult pyIntLowerMsg)
  | .pyNone => .ok (evidenceErrorResult pyNoneLowerMsg)

/-- LegalSupportAgent._mock_llm_call. -/
def legalMock (prompt : String) : JVal :=
  let lowerPrompt := pyLower prompt
  let has := fun w => strContainsSub lowerPrompt w
  if has "india" || has "delhi" then
    if has "blackmail" || has "photos" then
      .obj [("applicable_laws", .arr [.s "Section 354C IPC (Voyeurism)",
              .s "Section 66E IT Act (Privacy Violation)", .s "Section 384 IPC (Extortion)"]),
            ("complaint_steps", .arr [.s "Take screenshots of threats", .s "Do not delete messages",
              .s "File complaint at cybercrime.gov.in", .s "Visit nearest Cyber Cell"]),
            ("police_contact_structure", .s "National Cyber Crime Reporting Portal (1930) or local Cyber Cell Station."),
            ("rights_of_the_victim", .arr [.s "Right to anonymity", .s "Right to free legal aid",
              .s "Right to zero FIR (file complaint anywhere)"])]
    else if has "stalking" then
      .obj [("applicable_laws", .arr [.s "Section 354D IPC (Stalking)"]),
            ("complaint_steps", .arr [.s "Document all contact attempts", .s "Block user",
              .s "File FIR at local station"]),
            ("police_contact_structure", .s "Local Police Station (Women\'s Help Desk)."),
            ("rights_of_the_victim", .arr [.s "Right to protection order", .s "Right to privacy"])]
    else if has "rape" || has "sexual assault" || has "forced" then
      .obj [("applicable_laws", .arr [.s "Section 375/376 IPC (Rape)",
              .s "Section 354 IPC (Assault on woman with intent to outrage modesty)"]),
            ("complaint_steps", .arr [.s "Go to a safe place immediately", .s "Call 100 or 1091",
              .s "Do not wash evidence (clothes/body)", .s "Go to hospital for medical exam"]),
            ("police_contact_structure", .s "Nearest Police Station (SHOs are mandated to register FIR)."),
            ("rights_of_the_victim", .arr [.s "Right to free medical aid",
              .s "Right to statement in private", .s "Right to free legal counsel"])]
    else if has "domestic" || has "husband" || has "beat" || has "dowry" then
      .obj [("applicable_laws", .arr [.s "Protection of Women from Domestic Violence Act, 2005",
              .s "Section 498A IPC (Cruelty by husband/relatives)"]),
            ("complaint_steps", .arr [.s "Call 181 (Domestic Abuse Helpline)",
              .s "Contact a Protection Officer", .s "File DIR (Domestic Incident Report)"]),
            ("police_contact_structure", .s "Women\'s Cell or Local Magistrate."),
            ("rights_of_the_victim", .arr [.s "Right to residence", .s "Right to protection order",
              .s "Right to monetary relief"])]
    else
      .obj [("applicable_laws", .arr [.s "Indian Penal Code (IPC) General Provisions",
              .s "Information Technology Act, 2000"]),
            ("complaint_steps", .arr [.s "Dial 100 (Police) or 1091 (Women Helpline)",
              .s "Visit nearest Police Station", .s "File online at cybercrime.gov.in"]),
            ("police_contact_structure", .s "Local Police Station or Women\'s Cell."),
            ("rights_of_the_victim", .arr [.s "Right to Zero FIR",
              .s "Right to be attended by a female officer"])]
  else if has "usa" || has "united states" || has "america" then
    .obj [("applicable_laws", .arr [.s "18 U.S. Code § 2261A (Stalking)",
            .s "State-specific Cyber Harassment Laws"]),
          ("complaint_steps", .arr [.s "Preserve evidence", .s "Contact IC3 (FBI)",
            .s "File police report"]),
          ("police_contact_structure", .s "Local Police Department or FBI Field Office."),
          ("rights_of_the_victim", .arr [.s "Right to restraining order", .s "Victim compensation"])]
  else
    .obj [("applicable_laws", .arr [.s "Check local penal code for Harassment/Cyberbullying"]),
          ("complaint_steps", .arr [.s "Block user", .s "Report to platform", .s "Consult local lawyer"]),
          ("police_contact_structure", .s "Local Law Enforcement Agency."),
          ("rights_of_the_victim", .arr [.s "Right to report", .s "Right to safety"])]

/-- Error dictionary of LegalSupportAgent.process. -/
def legalErrorResult (msg : String) : JVal := .obj [
  ("applicable_laws", .arr [.s "Error"]),
  ("complaint_steps", .arr []),
  ("police_contact_structure", .s "Error"),
  ("rights_of_the_victim", .arr [.s ("System error: " ++ msg)])]

def legalProcessStr (apiKey : Option String) (s : String) : JVal :=
  callLlmApi legalMock "" s apiKey

/-- LegalSupportAgent.process: dict inputs are json.dumps-ed; its entry
log applies str() before slicing. -/
def legalProcessPy (apiKey : Option String) : PyVal → Except PyExc JVal
  | .pyStr s => .ok (legalProcessStr apiKey s)
  | .pyDict fs => .ok (legalProcessStr apiKey (JVal.obj fs).dump)
  | .pyInt _ => .ok (legalErrorResult pyIntLowerMsg)
  | .pyNone => .ok (legalErrorResult pyNoneLowerMsg)

/-- PanicResponseAgent emergency trigger words. -/
def panicTriggers : List String :=
  ["help", "danger", "panic", "emergency", "follow", "scared", "unsafe", "kill"]

/-- PanicResponseAgent._mock_llm_call. -/
def panicMock (prompt : String) : JVal :=
  let lowerPrompt := pyLower prompt
  if panicTriggers.any (fun t => strContainsSub lowerPrompt t) then
    .obj [("location_request", .b true),
          ("auto_recording_signal", .b true),
          ("message_template_for_contacts", .s "SOS! I am in danger. Here is my location. Audio recording started."),
          ("emergency_status", .s "Active")]
  else
    .obj [("location_request", .b false),
          ("auto_recording_signal", .b false),
          ("message_template_for_contacts", .s ""),
          ("emergency_status", .s "Standby")]

/-- The hardware-actions dictionary attached on an Active emergency.  The
value of time.time() is the explicit now parameter. -/
def panicHardwareActions (now : JVal) : JVal := .obj [
  ("gps_location", .obj [("lat", .flt "28.7041"), ("long", .flt "77.1025"),
    ("precision", .s "10m"), ("timestamp", now)]),
  ("audio_recording", .s "/data/secure_storage/panic_rec_001.aac"),
  ("sos_broadcast", .s "Encrypted Signal Sent to Nearest Police Node (ID: POL-55)")]

/-- Error dictionary of PanicResponseAgent.process. -/
def panicErrorResult (msg : String) : JVal := .obj [
  ("location_request", .b false),
  ("auto_recording_signal", .b false),
  ("message_template_for_contacts", .s ("Error: " ++ msg)),
  ("emergency_status", .s "Error")]

/-- PanicResponseAgent.process on text: parse the mock output and, when
the emergency status is Active, enrich it with the hardware actions. -/
def panicProcessStr (apiKey : Option String) (now : JVal) (textContent : String) : JVal :=
  let result := callLlmApi panicMock "" textContent apiKey
  if jGetEqStr result "emergency_status" "Active" then
    result.set "hardware_actions" (panicHardwareActions now)
  else result

/-- PanicResponseAgent.process on an arbitrary input value: dict inputs
are json.dumps-ed, int and None inputs fail at .lower() inside the try
block and produce the error dictionary. -/
def panicProcessPy (apiKey : Option String) (now : JVal) : PyVal → Except PyExc JVal
  | .pyStr s => .ok (panicProcessStr apiKey now s)
  | .pyDict fs => .ok (panicProcessStr apiKey now (JVal.obj fs).dump)
  | .pyInt _ => .ok (panicErrorResult pyIntLowerMsg)
  | .pyNone => .ok (panicErrorResult pyNoneLowerMsg)

/-- MultilingualAgent._mock_llm_call. -/
def multilingualMock (prompt : String) : JVal :=
  let lowerPrompt := pyLower prompt
  let has := fun w => strContainsSub lowerPrompt w
  if has "help" || has "bachao" then
    .obj [("input_language", .s "hi"),
          ("output_translation", .s "Help me / Save me"),
          ("speech_command", .s "emergency_help")]
  else if has "maar" || has "kill" || has "khatam" then
    .obj [("input_language", .s "hi"),
          ("output_translation", .s "I will kill you / finish you (Death Threat)"),
          ("speech_command", .s "none")]
  else if has "paisa" || has "rupaye" then
    .obj [("input_language", .s "hi"),
          ("output_translation", .s "Give money (Financial Demand)"),
          ("speech_command", .s "none")]
  else if has "ayuda" || has "peligro" then
    .obj [("input_language", .s "es"),
          ("output_translation", .s "Help / Danger"),
          ("speech_command", .s "emergency_help")]
  else if has "record" || has "grabar" then
    .obj [("input_language", .s "auto"),
          ("output_translation", .s "Record this"),
          ("speech_command", .s "start_recording")]
  else
    .obj [("input_language", .s "en"),
          ("output_translation", .s prompt),
          ("speech_command", .s "none")]

/-- Error dictionary of MultilingualAgent.process. -/
def multilingualErrorResult : JVal := .obj [
  ("input_language", .s "unknown"),
  ("output_translation", .s "Error"),
  ("speech_command", .s "error")]

def multilingualProcessStr (apiKey : Option String) (s : String) : JVal :=
  callLlmApi multilingualMock "" s apiKey

/-- MultilingualAgent.process on an arbitrary input value. -/
def multilingualProcessPy (apiKey : Option String) : PyVal → Except PyExc JVal
  | .pyStr s => .ok (multilingualProcessStr apiKey s)
  | .pyDict fs => .ok (multilingualProcessStr apiKey (JVal.obj fs).dump)
  | .pyInt _ => .ok multilingualErrorResult
  | .pyNone => .ok multilingualErrorResult

/-- RealityCheckAgent._mock_llm_call. -/
def realityMock (prompt : String) : JVal :=
  let lowerPrompt := pyLower prompt
  let has := fun w => strContainsSub lowerPrompt w
  if has "money" || has "financial" then
    .obj [("bait_messages", .arr [
            .s "I can\'t send money right now, but I can help you find a job.",
            .s "My bank account is frozen, can we meet in person instead?"]),
          ("predicted_responses", .obj [
            ("malicious", .s "They will get angry, guilt-trip you, or refuse to meet."),
            ("safe", .s "They will be understanding and open to other forms of help.")]),
          ("confidence_score", .n 90)]
  else if has "secret" || has "don\'t tell" then
    .obj [("bait_messages", .arr [
            .s "I tell my mom everything, I\'m going to ask her advice.",
            .s "Why does it have to be a secret? That makes me uncomfortable."]),
          ("predicted_responses", .obj [
            ("malicious", .s "They will panic, threaten you, or try to isolate you further."),
            ("safe", .s "They will respect your boundary and agree to be open.")]),
          ("confidence_score", .n 85)]
  else if has "love" || has "soulmate" then
    .obj [("bait_messages", .arr [
            .s "This is moving too fast for me, I need some space.",
            .s "I want to take things slow and get to know you as a friend first."]),
          ("predicted_responses", .obj [
            ("malicious", .s "They will accuse you of not loving them or try to rush you again (Love Bombing)."),
            ("safe", .s "They will respect your pace and back off.")]),
          ("confidence_score", .n 80)]
  else
    .obj [("bait_messages", .arr [.s "Can we talk about this later?",
            .s "I\'m not comfortable with this topic."]),
          ("predicted_responses", .obj [
            ("malicious", .s "Pushy or dismissive behavior."),
            ("safe", .s "Respectful agreement.")]),
          ("confidence_score", .n 50)]

/-- Error dictionary of RealityCheckAgent.process. -/
def realityErrorResult : JVal := .obj [
  ("bait_messages", .arr [.s "Error generating bait"]),
  ("predicted_responses", .obj []),
  ("confidence_score", .n 0)]

def realityProcessStr (apiKey : Option String) (s : String) : JVal :=
  callLlmApi realityMock "" s apiKey

/-- RealityCheckAgent.process on an arbitrary input value. -/
def realityProcessPy (apiKey : Option String) : PyVal → Except PyExc JVal
  | .pyStr s => .ok (realityProcessStr apiKey s)
  | .pyDict fs => .ok (realityProcessStr apiKey (JVal.obj fs).dump)
  | .pyInt _ => .ok realityErrorResult
  | .pyNone => .ok realityErrorResult

/-- The dictionary the EvaluationAgent mock returns when its bare except
fires (unparseable or otherwise unusable input). -/
def evalParseFailObj : JVal := .obj [
  ("quality_score", .n 0),
  ("consistency_check", .s "Error"),
  ("safety_check", .s "Unknown"),
  ("critique", .s "Failed to parse input data.")]

/-- Python d.get(k, dflt): defined when d is a dictionary; on any other
value Python raises (none here), which the mock catches. -/
def jDictGetD (j : JVal) (k : String) (dflt : JVal) : Option JVal :=
  match j with
  | .obj fs => some (match lookupStr fs k with | some v => v | none => dflt)
  | _ => none

/-- Python == between an arbitrary value and a string literal. -/
def jEqStrVal (j : JVal) (target : String) : Bool :=
  match j with
  | .s v => v = target
  | _ => false

/-- Body of the try block of EvaluationAgent._mock_llm_call on parsed
data; none signals an exception, caught by the bare except. -/
def evalAnalyze (data : JVal) : Option JVal := do
  let threatObj ← jDictGetD data "threat" (.obj [])
  let threatLevel ← jDictGetD threatObj "severity" (.s "Low")
  let legalObj ← jDictGetD data "legal" (.obj [])
  let legalAdvice ← jDictGetD legalObj "applicable_laws" (.arr [])
  let scoreCritique :=
    if jEqStrVal threatLevel "High" && !legalAdvice.truthy then
      ((4 : Int), "Critical Issue: High threat detected but no legal laws found.")
    else if jEqStrVal threatLevel "Low" && strContainsSub data.pyRepr "Kill" then
      ((2 : Int), "Critical Error: Threat agent missed a death threat.")
    else ((8 : Int), "Good analysis.")
  pure (.obj [
    ("quality_score", .n scoreCritique.1),
    ("consistency_check", .s (if scoreCritique.1 > 5 then "Pass" else "Fail")),
    ("safety_check", .s "Pass"),
    ("critique", .s scoreCritique.2)])

/-- EvaluationAgent._mock_llm_call, parameterised by the behaviour of
json.loads on strings (parsing is not otherwise modelled). -/
def evalMock (loads : String → Option JVal) (prompt : String) : JVal :=
  match loads prompt with
  | some data =>
    match evalAnalyze data with
    | some r => r
    | none => evalParseFailObj
  | none => evalParseFailObj

/-- EvaluationAgent.process on an arbitrary input value: dict inputs are
json.dumps-ed; for int or None inputs json.loads raises inside the mock
own bare except, which returns the parse-failure dictionary, so the outer
handler (which would return an error-key dictionary) is never reached. -/
def evalProcessPy (loads : String → Option JVal) (apiKey : Option String) :
    PyVal → Except PyExc JVal
  | .pyStr s => .ok (callLlmApi (evalMock loads) "" s apiKey)
  | .pyDict fs => .ok (callLlmApi (evalMock loads) "" (JVal.obj fs).dump apiKey)
  | .pyInt _ => .ok evalParseFailObj
  | .pyNone => .ok evalParseFailObj

/-- MasterController.router: a constant routing decision. -/
def router (_userInput : String) : List String := ["threat", "manipulation", "redflag"]

/-- Registered name (agent.name) of each MasterController role key. -/
def roleAgentName : String → String
  | "language" => "MultilingualAgent"
  | "panic" => "PanicResponseAgent"
  | "threat" => "ThreatDetectionAgent"
  | "manipulation" => "ManipulationDetectionAgent"
  | "redflag" => "RedFlagDetectionAgent"
  | "evidence" => "EvidenceCollectorAgent"
  | "legal" => "LegalSupportAgent"
  | "reality" => "RealityCheckAgent"
  | other => other

/-- The orchestrator agents dictionary after MasterController.__init__
registers all eight agents, in registration order. -/
def masterAgents (apiKey : Option String) (now : JVal) : List (String × (String → JVal)) := [
  ("MultilingualAgent", multilingualProcessStr apiKey),
  ("PanicResponseAgent", panicProcessStr apiKey now),
  ("ThreatDetectionAgent", threatProcessStr apiKey),
  ("ManipulationDetectionAgent", manipulationProcessStr apiKey),
  ("RedFlagDetectionAgent", redFlagProcessStr apiKey),
  ("EvidenceCollectorAgent", evidenceProcessStr apiKey),
  ("LegalSupportAgent", legalProcessStr apiKey),
  ("RealityCheckAgent", realityProcessStr apiKey)]

/-- MasterController.pipeline.  The api_key memory slot and the wall
clock are explicit parameters; the result is the results dictionary in
its insertion order. -/
def pipeline (apiKey : Option String) (now : JVal) (userInput : String) : List (String × JVal) :=
  let langResult := multilingualProcessStr apiKey userInput
  let analysisText := getStrD langResult "output_translation" userInput
  let panicResult := panicProcessStr apiKey now analysisText
  let analysisAgents := router analysisText
  let coreResults := runParallel (masterAgents apiKey now) analysisText
    (analysisAgents.map roleAgentName)
  let threatR := lookupStr coreResults "ThreatDetectionAgent"
  let manipR := lookupStr coreResults "ManipulationDetectionAgent"
  let redflagR := lookupStr coreResults "RedFlagDetectionAgent"
  let evidenceInput : JVal := .obj [
    ("text", .s analysisText),
    ("threat_analysis", optJ threatR),
    ("manipulation_analysis", optJ manipR),
    ("redflag_analysis", optJ redflagR)]
  let evidenceR := evidenceProcessStr apiKey evidenceInput.dump
  let legalInput : JVal := .obj [
    ("situation", optJ (evidenceR.get "summary_evidence_pack")),
    ("crime_category", optJ (evidenceR.get "crime_category")),
    ("location", .s "User Location"),
    ("full_text", .s analysisText)]
  let legalR := legalProcessStr apiKey legalInput.dump
  let realityR :=
    if !(jGetEqStr panicResult "emergency_status" "Active") then
      realityProcessStr apiKey analysisText
    else .obj [("status", .s "Skipped due to emergency")]
  [("language", langResult), ("panic", panicResult), ("threat", optJ threatR),
   ("manipulation", optJ manipR), ("redflag", optJ redflagR), ("evidence", evidenceR),
   ("legal", legalR), ("reality", realityR)]

/-- Specification of the pipeline from the spec text: a straight-line
sequence of direct agent invocations in the fixed order language, panic,
threat, manipulation, redflag, evidence, legal, with the reality agent
invoked exactly when the panic result is not an Active emergency. -/
def pipelineLinearSpec (apiKey : Option String) (now : JVal) (userInput : String) :
    List (String × JVal) :=
  let langResult := multilingualProcessStr apiKey userInput
  let analysisText := getStrD langResult "output_translation" userInput
  let panicResult := panicProcessStr apiKey now analysisText
  let threatR := threatProcessStr apiKey analysisText
  let manipR := manipulationProcessStr apiKey analysisText
  let redflagR := redFlagProcessStr apiKey analysisText
  let evidenceR := evidenceProcessStr apiKey (JVal.obj [
    ("text", .s analysisText),
    ("threat_analysis", threatR),
    ("manipulation_analysis", manipR),
    ("redflag_analysis", redflagR)]).dump
  let legalR := legalProcessStr apiKey (JVal.obj [
    ("situation", optJ (evidenceR.get "summary_evidence_pack")),
    ("crime_category", optJ (evidenceR.get "crime_category")),
    ("location", .s "User Location"),
    ("full_text", .s analysisText)]).dump
  let realityR :=
    if !(jGetEqStr panicResult "emergency_status" "Active") then
      realityProcessStr apiKey analysisText
    else .obj [("status", .s "Skipped due to emergency")]
  [("language", langResult), ("panic", panicResult), ("threat", threatR),
   ("manipulation", manipR), ("redflag", redflagR), ("evidence", evidenceR),
   ("legal", legalR), ("reality", realityR)]

/-- DeepForensicScan status values. -/
inductive ScanStatus where
  | idle
  | running
  | paused
  | completed
deriving DecidableEq

/-- DeepForensicScan mutable state (status, progress, result). -/
structure ScanState where
  status : ScanStatus
  progress : Nat
  result : Option String
deriving DecidableEq

/-- DeepForensicScan.__init__. -/
def scanInitState : ScanState := { status := .idle, progress := 0, result := none }

/-- DeepForensicScan.start. -/
def scanStart (s : ScanState) : ScanState := { s with status := .running, progress := 0 }

/-- DeepForensicScan.pause. -/
def scanPause (s : ScanState) : ScanState :=
  if s.status = .running then { s with status := .paused } else s

/-- DeepForensicScan.resume. -/
def scanResume (s : ScanState) : ScanState :=
  if s.status = .paused then { s with status := .running } else s

/-- DeepForensicScan.step: while running, advance by 20 and complete at
100 or more. -/
def scanStep (s : ScanState) : ScanState :=
  if s.status = .running then
    let p := s.progress + 20
    if p ≥ 100 then { status := .completed, progress := p, result := some "Operation Successful" }
    else { s with progress := p }
  else s

/-- The operations of the DeepForensicScan object, for reachability. -/
inductive ScanOp where
  | start
  | pause
  | resume
  | step

def applyScanOp (s : ScanState) : ScanOp → ScanState
  | .start => scanStart s
  | .pause => scanPause s
  | .resume => scanResume s
  | .step => scanStep s

def applyScanOps (s : ScanState) (ops : List ScanOp) : ScanState :=
  ops.foldl applyScanOp s

/-- The while-loop of pipeline_v3: step the scan while its status is
RUNNING.  Each step of a running scan adds 20 to its progress and a scan
at 80 or more completes, so the loop terminates. -/
def runScanLoop (s : ScanState) : ScanState :=
  if h : s.status = .running then runScanLoop (scanStep s) else s
termination_by (if s.status = .running then 1 else 0) + (100 - s.progress)
decreasing_by
  simp only [scanStep, h, if_true, reduceIte]
  split <;> simp_all <;> omega

/-- One row of the LegalKnowledgeBase law book; the Python key section is
spelled sect (section is a reserved word here). -/
structure LawEntry where
  country : String
  sect : String
  act : String
  title : String
  desc : String

/-- LegalKnowledgeBase.law_book. -/
def lawBook : List LawEntry := [
  { country := "India", sect := "354A", act := "IPC", title := "Sexual Harassment",
    desc := "Physical contact, advances, or demanding sexual favors." },
  { country := "India", sect := "354C", act := "IPC", title := "Voyeurism",
    desc := "Capturing or sharing images of a woman engaging in a private act." },
  { country := "India", sect := "354D", act := "IPC", title := "Stalking",
    desc := "Following, contacting, or monitoring a woman despite disinterest." },
  { country := "India", sect := "503", act := "IPC", title := "Criminal Intimidation",
    desc := "Threatening injury to person, reputation, or property." },
  { country := "India", sect := "506", act := "IPC", title := "Punishment for Criminal Intimidation",
    desc := "Imprisonment for a term which may extend to two years." },
  { country := "India", sect := "66E", act := "IT Act", title := "Privacy Violation",
    desc := "Capturing, publishing or transmitting image of private area of any person." },
  { country := "USA", sect := "2261A", act := "US Code", title := "Stalking",
    desc := "Traveling in interstate commerce to kill, injure, harass, or intimidate." },
  { country := "UK", sect := "2", act := "Protection from Harassment Act", title := "Harassment",
    desc := "Offence of harassment." }]

/-- LegalKnowledgeBase.search. -/
def legalKBSearch (query : String) (countryFilter : Option String) : String :=
  let q := pyLower query
  let results := lawBook.filterMap (fun law =>
    if (match countryFilter with
        | some cf => decide (cf ≠ "") && !(strContainsSub (pyLower law.country) (pyLower cf))
        | none => false) then none
    else if strContainsSub (pyLower law.sect) q || strContainsSub (pyLower law.title) q ||
        strContainsSub (pyLower law.desc) q then
      some ("[" ++ law.country ++ "] " ++ law.act ++ " Section " ++ law.sect ++ " - " ++
        law.title ++ ": " ++ law.desc)
    else none)
  if results.isEmpty then "No specific legal section found."
  else String.intercalate "\n" (results.take 3)

/-- LegalLookupTool.execute: internal database first, web-search wording
as fallback. -/
def legalLookupExecute (query : String) (country : Option String) : String :=
  let internalResult := legalKBSearch query country
  if strContainsSub internalResult "No specific legal section found" then
    let webQuery := "legal section for " ++ query ++ " in " ++
      (match country with
       | some c => if c = "" then "general" else c
       | none => "general")
    "Source: Live Web Search\n" ++
      ("[Search Result] Found 5 articles relevant to \'" ++ webQuery ++ "\'.")
  else "Source: Internal Database\n" ++ internalResult

/-- Case-insensitive literal match of a (lower-case) pattern at the head
of a character list, as a regex literal under re.IGNORECASE. -/
def litCharsMatch : List Char → List Char → Bool
  | [], _ => true
  | _ :: _, [] => false
  | p :: ps, c :: cs => (Char.toLower c = p) && litCharsMatch ps cs

/-- Python regex class of whitespace characters for ASCII text. -/
def pyIsSpace (c : Char) : Bool :=
  c = ' ' || c = '\t' || c = '\n' || c = '\r' || c = '\x0b' || c = '\x0c'

/-- Attempt of the regex tail at a position: greedy whitespace, then one
or more digits, then an optional letter ([A-Z] under IGNORECASE); returns
the captured group. -/
def matchNumTail (l : List Char) : Option (List Char) :=
  let afterSpace := l.dropWhile pyIsSpace
  let digits := afterSpace.takeWhile Char.isDigit
  if digits.isEmpty then none
  else match afterSpace.drop digits.length with
    | c :: _ => if c.isAlpha then some (digits ++ [c]) else some digits
    | [] => some digits

/-- Attempt of the whole pipeline_v3 section regex at one position, with
the alternation preference Section, then Sec, then the empty option. -/
def matchSectionAt (l : List Char) : Option (List Char) :=
  match (if litCharsMatch "section".data l then matchNumTail (l.drop 7) else none) with
  | some g => some g
  | none =>
    match (if litCharsMatch "sec".data l then matchNumTail (l.drop 3) else none) with
    | some g => some g
    | none => matchNumTail l

/-- re.search: scan positions left to right for the first match. -/
def searchSection : List Char → Option (List Char)
  | [] => none
  | c :: t =>
    match matchSectionAt (c :: t) with
    | some g => some g
    | none => searchSection t

/-- The re.search call of pipeline_v3, returning group(1). -/
def regexSectionSearch (s : String) : Option String :=
  (searchSection s.data).map (fun g => String.mk g)

/-- The legal knowledge-base enrichment step of pipeline_v3: when the
legal result has applicable laws, look the first one up in the law book
and store the answer under tool_lookup inside the legal dictionary. -/
def legalEnrichment (userInput : String) (results : List (String × JVal)) :
    List (String × JVal) :=
  match lookupStr results "legal" with
  | some legalJ =>
    if legalJ.truthy &&
        (match legalJ.get "applicable_laws" with | some v => v.truthy | none => false) then
      match legalJ.get "applicable_laws" with
      | some (.arr (lawJ :: _)) =>
        let lawSuggestion := match lawJ with | .s v => v | _ => ""
        let country0 :=
          if strContainsSub lawSuggestion "IPC" || strContainsSub userInput "India" then
            some "India"
          else none
        let country1 := if strContainsSub lawSuggestion "US" then some "USA" else country0
        let country := if strContainsSub lawSuggestion "UK" then some "UK" else country1
        let searchQuery :=
          match regexSectionSearch lawSuggestion with
          | some g => g
          | none => lawSuggestion
        let lookupResult := legalLookupExecute searchQuery country
        dictSet results "legal" (legalJ.set "tool_lookup" (.s lookupResult))
      | _ => results
    else results
  | none => results

/-- MasterControllerV3.pipeline_v3: the standard pipeline, the legal-tool
enrichment, and the forensic-scan trigger guarded by the (never present)
severity_score field; threads the persistent scan object state. -/
def pipelineV3 (apiKey : Option String) (now : JVal) (scan : ScanState)
    (userInput : String) : List (String × JVal) × ScanState :=
  let results := pipeline apiKey now userInput
  let results := legalEnrichment userInput results
  let threatJ := match lookupStr results "threat" with | some t => t | none => .obj []
  let threatScore := match threatJ.get "severity_score" with | some v => v | none => .n 0
  let highThreat := match threatScore with | .n v => decide (v > 70) | _ => false
  if highThreat then
    let s1 := scanStep (scanStart scan)
    let s2 := scanResume (scanPause s1)
    let sFinal := runScanLoop s2
    (dictSet results "forensic_scan" (optJ (sFinal.result.map JVal.s)), sFinal)
  else (results, scan)

/-- One row of the history table of FinalMemoryBank. -/
structure HistRow where
  userId : String
  role : String
  content : String
  ts : Nat
deriving DecidableEq

/-- FinalMemoryBank state: the history table plus the wall clock, which
time.time() reads; it is modelled as a strictly increasing tick counter,
so consecutive inserts carry distinct increasing timestamps. -/
structure MemoryBank where
  rows : List HistRow
  clock : Nat

def memoryBankInit : MemoryBank := { rows := [], clock := 0 }

/-- FinalMemoryBank.store_message: INSERT INTO history (user_id, role,
content, timestamp) VALUES (?, ?, ?, time.time()). -/
def storeMessage (b : MemoryBank) (userId role content : String) : MemoryBank :=
  { rows := b.rows ++ [{ userId := userId, role := role, content := content, ts := b.clock }],
    clock := b.clock + 1 }

/-- Stable insertion by descending timestamp. -/
def insertTsDesc (x : HistRow) : List HistRow → List HistRow
  | [] => [x]
  | y :: t => if x.ts ≤ y.ts then y :: insertTsDesc x t else x :: y :: t

/-- ORDER BY timestamp DESC; all reachable banks carry pairwise distinct
timestamps, for which every sort agrees with this one. -/
def sortTsDesc : List HistRow → List HistRow
  | [] => []
  | x :: t => insertTsDesc x (sortTsDesc t)

/-- FinalMemoryBank.get_user_history: SELECT role, content FROM history
WHERE user_id = ? ORDER BY timestamp DESC LIMIT ?, then the Python [::-1]
reversal of the fetched rows. -/
def getUserHistory (b : MemoryBank) (userId : String) (limit : Nat) :
    List (String × String) :=
  (((sortTsDesc (b.rows.filter (fun r => decide (r.userId = userId)))).take limit).map
    (fun r => (r.role, r.content))).reverse

/-- One store_message call, for reasoning over call sequences. -/
structure ChatMsg where
  userId : String
  role : String
  content : String

def applyMessages (msgs : List ChatMsg) : MemoryBank :=
  msgs.foldl (fun b m => storeMessage b m.userId m.role m.content) memoryBankInit

/-- Specification from the spec text: the at most limit most recent turns
of the user, oldest to newest. -/
def recentTurnsSpec (msgs : List ChatMsg) (userId : String) (limit : Nat) :
    List (String × String) :=
  let turns := (msgs.filter (fun m => decide (m.userId = userId))).map
    (fun m => (m.role, m.content))
  turns.drop (turns.length - limit)

/-- The rows a sequence of store_message calls inserts when the clock
starts at t0: one row per message, with consecutive timestamps. -/
def buildRows (msgs : List ChatMsg) (t0 : Nat) : List HistRow :=
  match msgs with
  | [] => []
  | m :: rest =>
    { userId := m.userId, role := m.role, content := m.content, ts := t0 } ::
      buildRows rest (t0 + 1)

/-! Helper lemmas. -/

lemma callLlmApi_eq {α : Type} (mock : String → α) (sysText userText : String)
    (apiKey : Option String) : callLlmApi mock sysText userText apiKey = mock userText := by
  simp [callLlmApi]

lemma lookupStr_append {α : Type} (l1 l2 : List (String × α)) (k : String) :
    lookupStr (l1 ++ l2) k =
      match lookupStr l1 k with
      | some v => some v
      | none => lookupStr l2 k := by
  induction l1 with
  | nil => rfl
  | cons a t ih =>
    rcases a with ⟨k1, v1⟩
    by_cases h : k1 = k <;> simp [lookupStr, h, ih]

lemma lookupStr_append_single_ne {α : Type} (l : List (String × α)) (k k' : String)
    (v : α) (h : k ≠ k') : lookupStr (l ++ [(k, v)]) k' = lookupStr l k' := by
  rw [lookupStr_append]
  cases hl : lookupStr l k' <;> simp [lookupStr, h, hl]

lemma dictSet_fresh {α : Type} (l : List (String × α)) (k : String) (v : α)
    (h : lookupStr l k = none) : dictSet l k v = l ++ [(k, v)] := by
  simp [dictSet, h]

lemma lookupStr_map_set {α : Type} (l : List (String × α)) (k k' : String) (v : α)
    (h : k ≠ k') :
    lookupStr (l.map (fun kv => if kv.1 = k then (k, v) else kv)) k' = lookupStr l k' := by
  induction l with
  | nil => rfl
  | cons a t ih =>
    rcases a with ⟨k1, v1⟩
    simp only [List.map_cons]
    by_cases h1 : k1 = k
    · subst h1
      rw [show (if (k1, v1).1 = k1 then (k1, v) else (k1, v1)) = (k1, v) from if_pos rfl]
      simp [lookupStr, h, ih]
    · rw [show (if (k1, v1).1 = k then (k, v) else (k1, v1)) = (k1, v1) from if_neg h1]
      by_cases h2 : k1 = k' <;> simp [lookupStr, h2, ih]

lemma lookupStr_dictSet_ne {α : Type} (l : List (String × α)) (k k' : String) (v : α)
    (h : k ≠ k') : lookupStr (dictSet l k v) k' = lookupStr l k' := by
  unfold dictSet
  split
  · exact lookupStr_map_set l k k' v h
  · exact lookupStr_append_single_ne l k k' v h

lemma runChain_go {ρ : Type} (agents : List (String × (String → ρ))) (inputText : String) :
    ∀ (names : List String) (acc : List (String × ρ)),
      names.Nodup → (∀ n ∈ names, lookupStr acc n = none) →
      names.foldl
        (fun results name =>
          match lookupStr agents name with
          | some agent => dictSet results name (agent inputText)
          | none => results) acc =
      acc ++ runChainSpec agents inputText names := by
  intro names
  induction names with
  | nil => intro acc _ _; simp [runChainSpec]
  | cons n t ih =>
    intro acc hnd hfresh
    have hnt : n ∉ t := (List.nodup_cons.mp hnd).1
    have hndt : t.Nodup := (List.nodup_cons.mp hnd).2
    simp only [List.foldl_cons]
    cases hag : lookupStr agents n with
    | none =>
      dsimp only
      rw [ih acc hndt (fun m hm => hfresh m (List.mem_cons_of_mem _ hm))]
      simp [runChainSpec, hag]
    | some agent =>
      dsimp only
      rw [dictSet_fresh _ _ _ (hfresh n (List.mem_cons_self n t))]
      rw [ih (acc ++ [(n, agent inputText)]) hndt ?_]
      · simp [runChainSpec, hag]
      · intro m hm
        have hne : n ≠ m := fun he => hnt (he ▸ hm)
        rw [lookupStr_append_single_ne _ _ _ _ hne]
        exact hfresh m (List.mem_cons_of_mem _ hm)

lemma runChain_eq_spec {ρ : Type} (agents : List (String × (String → ρ)))
    (inputText : String) (agentNames : List String) (h : agentNames.Nodup) :
    runChain agents inputText agentNames = runChainSpec agents inputText agentNames := by
  unfold runChain
  rw [runChain_go agents inputText agentNames [] h (fun n _ => rfl)]
  rfl

lemma pipeline_eq_linear (apiKey : Option String) (now : JVal) (userInput : String) :
    pipeline apiKey now userInput = pipelineLinearSpec apiKey now userInput := rfl

/-! Claim theorems. -/

/-- C1 (counterexample): ThreatDetectionAgent.process raises an uncaught
TypeError on the non-string input 5, because the entry log slices
input_data[:50] before the try block; so not every input is converted to
the Error dictionary. -/
theorem c1_counterexample :
    threatProcessPy none (.pyInt 5) = .error (.typeError intSliceMsg) := rfl

/-- C1 (amended): on string input every agent.process returns normally
(any internal failure would be converted to the agent Error dictionary);
the agents that stringify before slicing (Evidence, Legal, Panic,
Multilingual, RealityCheck, Evaluation) return normally on every input,
converting the .lower() failure on int or None input into their Error
dictionaries; but ThreatDetection, ManipulationDetection and
RedFlagDetection raise TypeError on non-string input from the log line
that precedes their try blocks. -/
theorem c1_amended :
    (∀ (k : Option String) (s : String),
      threatProcessPy k (.pyStr s) = .ok (threatProcessStr k s) ∧
      manipulationProcessPy k (.pyStr s) = .ok (manipulationProcessStr k s) ∧
      redFlagProcessPy k (.pyStr s) = .ok (redFlagProcessStr k s)) ∧
    (∀ (k : Option String) (v : PyVal),
      (evidenceProcessPy k v).isOk = true ∧
      (legalProcessPy k v).isOk = true ∧
      (∀ now : JVal, (panicProcessPy k now v).isOk = true) ∧
      (multilingualProcessPy k v).isOk = true ∧
      (realityProcessPy k v).isOk = true ∧
      (∀ loads : String → Option JVal, (evalProcessPy loads k v).isOk = true)) ∧
    (∀ (k : Option String) (n : Int) (fs : List (String × JVal)),
      threatProcessPy k (.pyInt n) = .error (.typeError intSliceMsg) ∧
      threatProcessPy k .pyNone = .error (.typeError noneSliceMsg) ∧
      threatProcessPy k (.pyDict fs) = .error (.typeError dictSliceMsg) ∧
      manipulationProcessPy k (.pyInt n) = .error (.typeError intSliceMsg) ∧
      redFlagProcessPy k (.pyInt n) = .error (.typeError intSliceMsg)) ∧
    (∀ (k : Option String) (n : Int),
      evidenceProcessPy k (.pyInt n) = .ok (evidenceErrorResult pyIntLowerMsg) ∧
      legalProcessPy k (.pyInt n) = .ok (legalErrorResult pyIntLowerMsg) ∧
      (∀ now : JVal, panicProcessPy k now (.pyInt n) = .ok (panicErrorResult pyIntLowerMsg))) :=
  ⟨fun _ _ => ⟨rfl, rfl, rfl⟩,
   fun _ v => by cases v <;> exact ⟨rfl, rfl, fun _ => rfl, rfl, rfl, fun _ => rfl⟩,
   fun _ _ _ => ⟨rfl, rfl, rfl, rfl, rfl⟩,
   fun _ _ => ⟨rfl, rfl, fun _ => rfl⟩⟩

/-- C5: run_parallel is definitionally the same computation as run_chain
on the same arguments and registered-agents state, and on duplicate-free
name lists the chain maps each registered requested agent name, in order,
to the output of its agent. -/
theorem c5_parallel_equals_chain :
    (∀ (ρ : Type) (agents : List (String × (String → ρ))) (inputText : String)
        (agentNames : List String),
      runParallel agents inputText agentNames = runChain agents inputText agentNames) ∧
    (∀ (ρ : Type) (agents : List (String × (String → ρ))) (inputText : String)
        (agentNames : List String), agentNames.Nodup →
      runChain agents inputText agentNames = runChainSpec agents inputText agentNames) :=
  ⟨fun _ _ _ _ => rfl, fun _ agents inputText agentNames h => runChain_eq_spec agents inputText agentNames h⟩

/-- C5 (witness): the equivalence at a concrete orchestrator state. -/
theorem c5_witness :
    runParallel (masterAgents none (.n 0)) "hello"
        ["ThreatDetectionAgent", "RedFlagDetectionAgent"] =
      runChain (masterAgents none (.n 0)) "hello"
        ["ThreatDetectionAgent", "RedFlagDetectionAgent"] ∧
    runChain (masterAgents none (.n 0)) "hello"
        ["ThreatDetectionAgent", "RedFlagDetectionAgent"] =
      runChainSpec (masterAgents none (.n 0)) "hello"
        ["ThreatDetectionAgent", "RedFlagDetectionAgent"] :=
  ⟨c5_parallel_equals_chain.1 _ _ _ _,
   c5_parallel_equals_chain.2 _ _ _ _ (by decide)⟩

/-- C7 (counterexample): four steps from a freshly started scan leave it
RUNNING at progress 80 with no result; four steps do NOT complete it. -/
theorem c7_counterexample :
    (scanStep^[4] (scanStart scanInitState)).status = ScanStatus.running ∧
    (scanStep^[4] (scanStart scanInitState)).progress = 80 ∧
    (scanStep^[4] (scanStart scanInitState)).result = none := by decide

/-- C7 (amended): DeepForensicScan is a FIVE-step progress counter:
exactly five steps from a started scan reach COMPLETED with result
Operation Successful; step leaves any non-RUNNING state unchanged; and
along every operation sequence from the initial object the progress is a
multiple of 20. -/
theorem c7_amended :
    (scanStep^[5] (scanStart scanInitState)).status = ScanStatus.completed ∧
    (scanStep^[5] (scanStart scanInitState)).result = some "Operation Successful" ∧
    (scanStep^[4] (scanStart scanInitState)).status = ScanStatus.running ∧
    (∀ s : ScanState, s.status ≠ ScanStatus.running → scanStep s = s) ∧
    (∀ ops : List ScanOp, (applyScanOps scanInitState ops).progress % 20 = 0) := by
  refine ⟨by decide, by decide, by decide, ?_, ?_⟩
  · intro s h
    unfold scanStep
    rw [if_neg h]
  · have step : ∀ (s : ScanState) (op : ScanOp),
        s.progress % 20 = 0 → (applyScanOp s op).progress % 20 = 0 := by
      intro s op h
      cases op with
      | start => simp [applyScanOp, scanStart]
      | pause => simp only [applyScanOp, scanPause]; split <;> simp [h]
      | resume => simp only [applyScanOp, scanResume]; split <;> simp [h]
      | step =>
        simp only [applyScanOp, scanStep]
        by_cases hr : s.status = ScanStatus.running
        · rw [if_pos hr]
          by_cases hp : s.progress + 20 ≥ 100
          · rw [if_pos hp]; simp only; omega
          · rw [if_neg hp]; simp only; omega
        · rw [if_neg hr]; exact h
    have go : ∀ (ops : List ScanOp) (s : ScanState),
        s.progress % 20 = 0 → (applyScanOps s ops).progress % 20 = 0 := by
      intro ops
      induction ops with
      | nil => intro s h; exact h
      | cons op t ih =>
        intro s h
        exact ih (applyScanOp s op) (step s op h)
    exact fun ops => go ops scanInitState rfl

/-- C7 (witness): the step-is-identity clause at a concrete paused
state, through the theorem itself. -/
theorem c7_witness :
    (scanStep^[5] (scanStart scanInitState)).status = ScanStatus.completed ∧
    scanStep { status := ScanStatus.paused, progress := 40, result := none } =
      { status := ScanStatus.paused, progress := 40, result := none } :=
  ⟨c7_amended.1, c7_amended.2.2.2.1 _ (by decide)⟩

/-- C8: no agent performs inference or network calls: _call_llm_api uses
the mock unconditionally, so its output, and every agent process output,
is identical under any two api_key memory values (including none). -/
theorem c8_api_key_independent :
    (∀ (α : Type) (mock : String → α) (sysText userText : String)
        (k1 k2 : Option String),
      callLlmApi mock sysText userText k1 = callLlmApi mock sysText userText k2) ∧
    (∀ (k1 k2 : Option String) (v : PyVal),
      threatProcessPy k1 v = threatProcessPy k2 v ∧
      manipulationProcessPy k1 v = manipulationProcessPy k2 v ∧
      redFlagProcessPy k1 v = redFlagProcessPy k2 v ∧
      evidenceProcessPy k1 v = evidenceProcessPy k2 v ∧
      legalProcessPy k1 v = legalProcessPy k2 v ∧
      (∀ now : JVal, panicProcessPy k1 now v = panicProcessPy k2 now v) ∧
      multilingualProcessPy k1 v = multilingualProcessPy k2 v ∧
      realityProcessPy k1 v = realityProcessPy k2 v ∧
      (∀ loads : String → Option JVal, evalProcessPy loads k1 v = evalProcessPy loads k2 v)) ∧
    (∀ (k1 k2 : Option String) (now : JVal) (userInput : String),
      pipeline k1 now userInput = pipeline k2 now userInput) := by
  have hs : ∀ (α : Type) (mock : String → α) (sysText userText : String)
      (k1 k2 : Option String),
      callLlmApi mock sysText userText k1 = callLlmApi mock sysText userText k2 := by
    intro α mock sysText userText k1 k2
    rw [callLlmApi_eq, callLlmApi_eq]
  refine ⟨hs, ?_, ?_⟩
  · intro k1 k2 v
    cases v <;>
      refine ⟨?_, ?_, ?_, ?_, ?_, fun now => ?_, ?_, ?_, fun loads => ?_⟩ <;>
      simp [threatProcessPy, manipulationProcessPy, redFlagProcessPy, evidenceProcessPy,
        legalProcessPy, panicProcessPy, multilingualProcessPy, realityProcessPy,
        evalProcessPy, threatProcessStr, manipulationProcessStr, redFlagProcessStr,
        evidenceProcessStr, legalProcessStr, panicProcessStr, multilingualProcessStr,
        realityProcessStr, callLlmApi_eq]
  · intro k1 k2 now userInput
    rw [pipeline_eq_linear, pipeline_eq_linear]
    simp only [pipelineLinearSpec, threatProcessStr, manipulationProcessStr,
      redFlagProcessStr, evidenceProcessStr, legalProcessStr, panicProcessStr,
      multilingualProcessStr, realityProcessStr, callLlmApi_eq]

lemma listMax_mem_or_zero (ns : List Nat) : listMax ns = 0 ∨ listMax ns ∈ ns := by
  induction ns with
  | nil => exact .inl rfl
  | cons a t ih =>
    rcases Nat.le_total (listMax t) a with hle | hle
    · right
      rw [listMax, Nat.max_eq_left hle]
      exact List.mem_cons_self a t
    · rw [listMax, Nat.max_eq_right hle]
      rcases ih with h | h
      · exact .inl h
      · exact .inr (List.mem_cons_of_mem _ h)

lemma listMax_map_pos_iff {α : Type} (f : α → Nat) (l : List α) :
    0 < listMax (l.map f) ↔ (l.any (fun r => 0 < f r)) = true := by
  induction l with
  | nil => simp [listMax]
  | cons a t ih =>
    simp only [List.map_cons, listMax, List.any_cons, Bool.or_eq_true, lt_max_iff,
      decide_eq_true_eq, ih]

lemma foldl_kbStep_eq (q : String) (l : List KBRecord) :
    ∀ (b : Option KBRecord) (m : Nat),
      l.foldl (kbStep q) (b, m) =
        if m < listMax (l.map (matchedCount q)) then
          (l.find? (fun r => matchedCount q r = listMax (l.map (matchedCount q))),
           listMax (l.map (matchedCount q)))
        else (b, m) := by
  induction l with
  | nil => intro b m; simp [listMax]
  | cons x t ih =>
    intro b m
    simp only [List.foldl_cons, List.map_cons, listMax]
    have hstep : kbStep q (b, m) x =
        if matchedCount q x > m then (some x, matchedCount q x) else (b, m) := rfl
    rw [hstep]
    by_cases h1 : matchedCount q x > m
    · rw [if_pos h1, ih (some x) (matchedCount q x)]
      by_cases h2 : matchedCount q x < listMax (t.map (matchedCount q))
      · have hmax : max (matchedCount q x) (listMax (t.map (matchedCount q))) =
            listMax (t.map (matchedCount q)) := by omega
        simp only [hmax]
        rw [if_pos h2, if_pos (show m < listMax (t.map (matchedCount q)) by omega)]
        rw [List.find?_cons_of_neg t
          (by simp only [decide_eq_true_eq]; omega :
            ¬ (fun r => decide (matchedCount q r = listMax (t.map (matchedCount q)))) x = true)]
      · have hmax : max (matchedCount q x) (listMax (t.map (matchedCount q))) =
            matchedCount q x := by omega
        simp only [hmax]
        rw [if_neg h2, if_pos (show m < matchedCount q x by omega)]
        rw [List.find?_cons_of_pos t
          (by simp only [decide_eq_true_eq] :
            (fun r => decide (matchedCount q r = matchedCount q x)) x = true)]
    · rw [if_neg h1, ih b m]
      by_cases h2 : m < listMax (t.map (matchedCount q))
      · have hmax : max (matchedCount q x) (listMax (t.map (matchedCount q))) =
            listMax (t.map (matchedCount q)) := by omega
        simp only [hmax]
        rw [if_pos h2, if_pos h2]
        rw [List.find?_cons_of_neg t
          (by simp only [decide_eq_true_eq]; omega :
            ¬ (fun r => decide (matchedCount q r = listMax (t.map (matchedCount q)))) x = true)]
      · have hno : ¬ m < max (matchedCount q x) (listMax (t.map (matchedCount q))) := by omega
        rw [if_neg h2, if_neg hno]

lemma bestKB_isSome_of_pos (q : String)
    (h : 0 < listMax (knowledgeBase.map (matchedCount q))) :
    (bestKBMatchSpec q).isSome = true := by
  unfold bestKBMatchSpec
  rw [if_neg (by omega)]
  rcases listMax_mem_or_zero (knowledgeBase.map (matchedCount q)) with h0 | hmem
  · omega
  · rcases List.mem_map.mp hmem with ⟨r, hr, hfr⟩
    exact List.find?_isSome.mpr ⟨r, hr, by simp [hfr]⟩

lemma googleSearch_eq (input : String) :
    googleSearchSimulation input =
      if (bestKBMatchSpec (pyLower input)).isSome then
        { found := true, source := "Knowledge Base Match",
          result := (bestKBMatchSpec (pyLower input)).map SearchHit.kb }
      else if suspiciousWords.any (fun w => strContainsSub (pyLower input) w) then
        { found := true, source := "Heuristic Analysis", result := some heuristicHit }
      else { found := false, source := "Web Search", result := none } := by
  simp only [googleSearchSimulation]
  rw [foldl_kbStep_eq]
  by_cases h : 0 < listMax (knowledgeBase.map (matchedCount (pyLower input)))
  · rw [if_pos h]
    simp only [bestKBMatchSpec]
    rw [if_neg (show ¬ listMax (knowledgeBase.map (matchedCount (pyLower input))) = 0 by omega)]
    have hfind : (knowledgeBase.find? (fun r => matchedCount (pyLower input) r =
        listMax (knowledgeBase.map (matchedCount (pyLower input))))).isSome = true := by
      rcases listMax_mem_or_zero (knowledgeBase.map (matchedCount (pyLower input))) with h0 | hmem
      · omega
      · rcases List.mem_map.mp hmem with ⟨r, hr, hfr⟩
        exact List.find?_isSome.mpr ⟨r, hr, by simp [hfr]⟩
    simp [hfind, h]
  · rw [if_neg h]
    simp only [bestKBMatchSpec]
    rw [if_pos (show listMax (knowledgeBase.map (matchedCount (pyLower input))) = 0 by omega)]
    simp

lemma bestKB_isSome_iff (q : String) :
    (bestKBMatchSpec q).isSome = true ↔
      (knowledgeBase.any (fun r => 0 < matchedCount q r)) = true := by
  rw [← listMax_map_pos_iff]
  constructor
  · intro h
    by_contra hno
    have h0 : listMax (knowledgeBase.map (matchedCount q)) = 0 := by omega
    unfold bestKBMatchSpec at h
    rw [if_pos h0] at h
    exact Bool.false_ne_true h
  · exact bestKB_isSome_of_pos q

lemma bestKB_mem (q : String) (r : KBRecord) (h : bestKBMatchSpec q = some r) :
    r ∈ knowledgeBase := by
  simp only [bestKBMatchSpec] at h
  split at h
  · exact absurd h (by simp)
  · exact List.mem_of_find?_eq_some h

lemma kb_severity_le : ∀ r ∈ knowledgeBase, r.severity ≤ 5 := by decide

lemma googleSearch_result_severity (input : String) (hit : SearchHit)
    (h : (googleSearchSimulation input).result = some hit) : hit.severity ≤ 5 := by
  rw [googleSearch_eq] at h
  by_cases h1 : (bestKBMatchSpec (pyLower input)).isSome = true
  · rw [if_pos h1] at h
    rcases Option.isSome_iff_exists.mp h1 with ⟨r, hr⟩
    rw [hr] at h
    have he : hit = SearchHit.kb r := by simpa using h.symm
    rw [he]
    exact kb_severity_le r (bestKB_mem _ r hr)
  · rw [if_neg h1] at h
    split at h
    · have he : hit = heuristicHit := by simpa using h.symm
      rw [he]
      decide
    · simp at h

/-- C2: _google_search_simulation returns, when some knowledge-base
keyword occurs in the lowered input, found with the earliest record of
maximal matched-keyword count (bestKBMatchSpec); otherwise, when a
suspicious word occurs, the heuristic record with category Unclassified
Suspicious Activity and severity 3; otherwise found = False with result
None. -/
theorem c2_search_simulation (input : String) :
    ((knowledgeBase.any (fun r => 0 < matchedCount (pyLower input) r)) = true →
      googleSearchSimulation input =
        { found := true, source := "Knowledge Base Match",
          result := (bestKBMatchSpec (pyLower input)).map SearchHit.kb }) ∧
    ((knowledgeBase.any (fun r => 0 < matchedCount (pyLower input) r)) = false →
      (suspiciousWords.any (fun w => strContainsSub (pyLower input) w)) = true →
      googleSearchSimulation input =
        { found := true, source := "Heuristic Analysis", result := some heuristicHit }) ∧
    ((knowledgeBase.any (fun r => 0 < matchedCount (pyLower input) r)) = false →
      (suspiciousWords.any (fun w => strContainsSub (pyLower input) w)) = false →
      googleSearchSimulation input =
        { found := false, source := "Web Search", result := none }) := by
  refine ⟨?_, ?_, ?_⟩
  · intro hany
    rw [googleSearch_eq, if_pos ((bestKB_isSome_iff (pyLower input)).mpr hany)]
  · intro hany hsusp
    rw [googleSearch_eq,
      if_neg (fun hs => by rw [(bestKB_isSome_iff (pyLower input)).mp hs] at hany; cases hany),
      if_pos hsusp]
  · intro hany hsusp
    rw [googleSearch_eq,
      if_neg (fun hs => by rw [(bestKB_isSome_iff (pyLower input)).mp hs] at hany; cases hany),
      if_neg (by rw [hsusp]; exact Bool.false_ne_true)]

/-- C2 (witness): the three branches at concrete inputs. -/
theorem c2_witness :
    googleSearchSimulation "deepfake" =
      { found := true, source := "Knowledge Base Match",
        result := (bestKBMatchSpec (pyLower "deepfake")).map SearchHit.kb } ∧
    googleSearchSimulation "i am scared" =
      { found := true, source := "Heuristic Analysis", result := some heuristicHit } ∧
    googleSearchSimulation "good morning" =
      { found := false, source := "Web Search", result := none } :=
  ⟨(c2_search_simulation "deepfake").1 (by decide),
   (c2_search_simulation "i am scared").2.1 (by decide) (by decide),
   (c2_search_simulation "good morning").2.2 (by decide) (by decide)⟩

/-- C3 (counterexample): the keyword nude belongs to the record
sexual_harassment, and the input nude contains it, but the search returns
the deepfake record (the earliest with the same matched count), not the
sexual_harassment record; so containing a keyword of record R does not
make the matcher return R. -/
theorem c3_counterexample :
    sexualHarassmentEntry ∈ knowledgeBase ∧
    "nude" ∈ sexualHarassmentEntry.keywords ∧
    strContainsSub (pyLower "nude") "nude" = true ∧
    (googleSearchSimulation "nude").result = some (.kb deepfakeEntry) ∧
    deepfakeEntry ≠ sexualHarassmentEntry ∧
    getStrD (threatProcessStr none "nude") "exact_threat_category" "" =
      "Deepfake / Image Abuse" := by
  refine ⟨by decide, by decide, by decide, by decide, by decide, by decide⟩

/-- C3 (amended): an input whose lower-casing contains a keyword of some
knowledge-base record makes the search return found with a knowledge-base
record, namely the earliest record of maximal matched-keyword count
(which is R itself exactly when R is that earliest maximiser). -/
theorem c3_amended (input : String) (r : KBRecord) (kw : String)
    (hr : r ∈ knowledgeBase) (hkw : kw ∈ r.keywords)
    (hin : strContainsSub (pyLower input) kw = true) :
    (googleSearchSimulation input).found = true ∧
    (googleSearchSimulation input).result =
      (bestKBMatchSpec (pyLower input)).map SearchHit.kb ∧
    (bestKBMatchSpec (pyLower input)).isSome = true := by
  have hcount : 0 < matchedCount (pyLower input) r := by
    unfold matchedCount
    have : kw ∈ r.keywords.filter (fun word => strContainsSub (pyLower input) word) :=
      List.mem_filter.mpr ⟨hkw, hin⟩
    exact List.length_pos.mpr (fun he => by rw [he] at this; cases this)
  have hany : (knowledgeBase.any (fun r => 0 < matchedCount (pyLower input) r)) = true :=
    List.any_eq_true.mpr ⟨r, hr, by simpa using hcount⟩
  have hsome : (bestKBMatchSpec (pyLower input)).isSome = true :=
    (bestKB_isSome_iff (pyLower input)).mpr hany
  refine ⟨?_, ?_, hsome⟩ <;> rw [googleSearch_eq, if_pos hsome]

/-- C3 (witness): the amended statement at the input husband, a keyword
of the domestic-abuse record. -/
theorem c3_witness :
    (googleSearchSimulation "husband").found = true ∧
    (googleSearchSimulation "husband").result =
      (bestKBMatchSpec (pyLower "husband")).map SearchHit.kb ∧
    (bestKBMatchSpec (pyLower "husband")).isSome = true :=
  c3_amended "husband" domesticAbuseEntry "husband" (by decide) (by decide) (by decide)

/-- C4: on every return path the severity of a ThreatDetectionAgent
result is an integer in 0..5 (error path included), the trust_score of a
ManipulationDetectionAgent result is an integer in 0..100, and the
lust_intent_score of a RedFlagDetectionAgent result is an integer in
0..100. -/
theorem c4_score_bounds :
    (∀ (k : Option String) (s : String), ∃ v : Int,
      (threatProcessStr k s).get "severity" = some (.n v) ∧ 0 ≤ v ∧ v ≤ 5) ∧
    (∀ msg : String, ∃ v : Int,
      (threatErrorResult msg).get "severity" = some (.n v) ∧ 0 ≤ v ∧ v ≤ 5) ∧
    (∀ (k : Option String) (s : String), ∃ v : Int,
      (manipulationProcessStr k s).get "trust_score" = some (.n v) ∧ 0 ≤ v ∧ v ≤ 100) ∧
    (∀ msg : String, ∃ v : Int,
      (manipulationErrorResult msg).get "trust_score" = some (.n v) ∧ 0 ≤ v ∧ v ≤ 100) ∧
    (∀ (k : Option String) (s : String), ∃ v : Int,
      (redFlagProcessStr k s).get "lust_intent_score" = some (.n v) ∧ 0 ≤ v ∧ v ≤ 100) ∧
    (∀ msg : String, ∃ v : Int,
      (redFlagErrorResult msg).get "lust_intent_score" = some (.n v) ∧ 0 ≤ v ∧ v ≤ 100) := by
  refine ⟨?_, ?_, ?_, ?_, ?_, ?_⟩
  · intro k s
    unfold threatProcessStr
    rw [callLlmApi_eq]
    simp only [threatMock]
    cases hres : (googleSearchSimulation s).result with
    | none =>
      split <;> exact ⟨1, rfl, by omega, by omega⟩
    | some data =>
      have hsev := googleSearch_result_severity s data hres
      split
      · exact ⟨data.severity, rfl, by omega, by exact_mod_cast hsev⟩
      · exact ⟨1, rfl, by omega, by omega⟩
  · intro msg
    exact ⟨0, rfl, by omega, by omega⟩
  · intro k s
    unfold manipulationProcessStr
    rw [callLlmApi_eq]
    simp only [manipulationMock]
    split_ifs <;> exact ⟨_, rfl, by decide, by decide⟩
  · intro msg
    exact ⟨0, rfl, by omega, by omega⟩
  · intro k s
    unfold redFlagProcessStr
    rw [callLlmApi_eq]
    simp only [redFlagMock]
    split_ifs <;> exact ⟨_, rfl, by decide, by decide⟩
  · intro msg
    exact ⟨0, rfl, by omega, by omega⟩

/-- C6 (counterexample): on the input help the panic agent reports an
Active emergency and the pipeline does NOT invoke the reality agent: the
reality key holds the fixed skipped marker, which differs from what the
reality agent returns on the analysis text; so the agent call sequence is
input-dependent and the reality key is not populated by its agent on
every run. -/
theorem c6_counterexample :
    lookupStr (pipeline none (.n 0) "help") "reality" =
      some (JVal.obj [("status", .s "Skipped due to emergency")]) ∧
    optJ (lookupStr (pipeline none (.n 0) "help") "reality") ≠
      realityProcessStr none
        (getStrD (multilingualProcessStr none "help") "output_translation" "help") :=
  ⟨rfl, fun h => absurd (congrArg JVal.dump h) (by decide)⟩

/-- C6 (amended): the pipeline is the straight-line sequence language,
panic, threat, manipulation, redflag, evidence, legal on every input, and
every key of the result dictionary is populated, but the reality agent
runs only when the panic result is not an Active emergency (otherwise the
reality key holds the fixed skipped marker). -/
theorem c6_amended (apiKey : Option String) (now : JVal) (userInput : String) :
    pipeline apiKey now userInput = pipelineLinearSpec apiKey now userInput ∧
    (pipeline apiKey now userInput).map Prod.fst =
      ["language", "panic", "threat", "manipulation", "redflag", "evidence",
       "legal", "reality"] :=
  ⟨pipeline_eq_linear apiKey now userInput, rfl⟩

lemma threat_no_severity_score (k : Option String) (s : String) :
    (threatProcessStr k s).get "severity_score" = none := by
  unfold threatProcessStr
  rw [callLlmApi_eq]
  simp only [threatMock]
  cases (googleSearchSimulation s).result <;> split <;> rfl

lemma pipeline_threat (apiKey : Option String) (now : JVal) (u : String) :
    lookupStr (pipeline apiKey now u) "threat" =
      some (threatProcessStr apiKey
        (getStrD (multilingualProcessStr apiKey u) "output_translation" u)) := rfl

lemma legalEnrichment_lookup_ne (u : String) (results : List (String × JVal))
    (k : String) (hk : k ≠ "legal") :
    lookupStr (legalEnrichment u results) k = lookupStr results k := by
  unfold legalEnrichment
  cases hleg : lookupStr results "legal" with
  | none => rfl
  | some legalJ =>
    dsimp only
    split
    · split
      · exact lookupStr_dictSet_ne _ _ _ _ (Ne.symm hk)
      · rfl
    · rfl

lemma pipelineV3_eq (apiKey : Option String) (now : JVal) (scan : ScanState)
    (userInput : String) :
    pipelineV3 apiKey now scan userInput =
      (legalEnrichment userInput (pipeline apiKey now userInput), scan) := by
  have hthreat : lookupStr (legalEnrichment userInput (pipeline apiKey now userInput))
      "threat" = some (threatProcessStr apiKey
        (getStrD (multilingualProcessStr apiKey userInput) "output_translation" userInput)) := by
    rw [legalEnrichment_lookup_ne _ _ _ (by decide)]
    exact pipeline_threat apiKey now userInput
  simp only [pipelineV3]
  rw [hthreat]
  dsimp only
  rw [threat_no_severity_score]
  rfl

/-- C10: the deep-forensic-scan branch of pipeline_v3 is dead code: the
guard reads the key severity_score, which no ThreatDetectionAgent result
dictionary contains, so the guard value defaults to 0, the scan object is
never started (its state is returned unchanged), and the returned result
dictionary never has a forensic_scan key. -/
theorem c10_forensic_unreachable :
    (∀ (k : Option String) (s : String),
      (threatProcessStr k s).get "severity_score" = none) ∧
    (∀ (apiKey : Option String) (now : JVal) (scan : ScanState) (userInput : String),
      lookupStr (pipelineV3 apiKey now scan userInput).1 "forensic_scan" = none ∧
      (pipelineV3 apiKey now scan userInput).2 = scan) := by
  refine ⟨threat_no_severity_score, ?_⟩
  intro apiKey now scan userInput
  rw [pipelineV3_eq]
  refine ⟨?_, rfl⟩
  rw [legalEnrichment_lookup_ne _ _ _ (by decide)]
  rfl

lemma foldl_store_rows : ∀ (msgs : List ChatMsg) (b : MemoryBank),
    (msgs.foldl (fun b m => storeMessage b m.userId m.role m.content) b).rows =
      b.rows ++ buildRows msgs b.clock := by
  intro msgs
  induction msgs with
  | nil => intro b; simp [buildRows]
  | cons m t ih =>
    intro b
    simp only [List.foldl_cons]
    rw [ih]
    simp [storeMessage, buildRows]

lemma buildRows_ts_ge : ∀ (msgs : List ChatMsg) (t0 : Nat) (r : HistRow),
    r ∈ buildRows msgs t0 → t0 ≤ r.ts := by
  intro msgs
  induction msgs with
  | nil => intro t0 r h; cases h
  | cons m t ih =>
    intro t0 r h
    rcases List.mem_cons.mp h with h | h
    · rw [h]
    · exact Nat.le_of_succ_le (ih (t0 + 1) r h)

lemma buildRows_pairwise : ∀ (msgs : List ChatMsg) (t0 : Nat),
    (buildRows msgs t0).Pairwise (fun a b => a.ts < b.ts) := by
  intro msgs
  induction msgs with
  | nil => intro t0; exact List.Pairwise.nil
  | cons m t ih =>
    intro t0
    refine List.Pairwise.cons ?_ (ih (t0 + 1))
    intro r hr
    exact Nat.lt_of_lt_of_le (Nat.lt_succ_self t0) (buildRows_ts_ge t (t0 + 1) r hr)

lemma buildRows_filter_map (u : String) : ∀ (msgs : List ChatMsg) (t0 : Nat),
    ((buildRows msgs t0).filter (fun r => decide (r.userId = u))).map
        (fun r => (r.role, r.content)) =
      (msgs.filter (fun m => decide (m.userId = u))).map (fun m => (m.role, m.content)) := by
  intro msgs
  induction msgs with
  | nil => intro t0; rfl
  | cons m t ih =>
    intro t0
    by_cases h : m.userId = u <;>
      simp [buildRows, List.filter_cons, h, ih (t0 + 1)]

lemma insertTsDesc_ge (x : HistRow) : ∀ (l : List HistRow),
    (∀ y ∈ l, x.ts ≤ y.ts) → insertTsDesc x l = l ++ [x] := by
  intro l
  induction l with
  | nil => intro _; rfl
  | cons y t ih =>
    intro h
    simp only [insertTsDesc]
    rw [if_pos (h y (List.mem_cons_self y t))]
    rw [ih (fun z hz => h z (List.mem_cons_of_mem _ hz))]
    rfl

lemma sortTsDesc_ascending : ∀ (l : List HistRow),
    l.Pairwise (fun a b => a.ts < b.ts) → sortTsDesc l = l.reverse := by
  intro l
  induction l with
  | nil => intro _; rfl
  | cons x t ih =>
    intro h
    have hx : ∀ y ∈ t, x.ts < y.ts := (List.pairwise_cons.mp h).1
    have ht : t.Pairwise (fun a b => a.ts < b.ts) := (List.pairwise_cons.mp h).2
    simp only [sortTsDesc]
    rw [ih ht]
    rw [insertTsDesc_ge x t.reverse
      (fun y hy => Nat.le_of_lt (hx y (List.mem_reverse.mp hy)))]
    rw [List.reverse_cons]

lemma take_rev_map {α β : Type} (l : List α) (n : Nat) (f : α → β) :
    ((l.reverse.take n).map f).reverse = (l.map f).drop ((l.map f).length - n) := by
  rw [List.take_reverse, List.map_reverse, List.reverse_reverse, List.map_drop,
    List.length_map]

/-- C9: after any sequence of store_message calls, get_user_history
returns the at most limit most recent stored (role, content) turns of the
requested user, ordered oldest to newest; turns of other users are never
included. -/
theorem c9_history (msgs : List ChatMsg) (u : String) (limit : Nat) :
    getUserHistory (applyMessages msgs) u limit = recentTurnsSpec msgs u limit := by
  unfold getUserHistory applyMessages
  simp only [recentTurnsSpec]
  rw [show (msgs.foldl (fun b m => storeMessage b m.userId m.role m.content)
      memoryBankInit).rows = buildRows msgs 0 from foldl_store_rows msgs memoryBankInit]
  rw [sortTsDesc_ascending _ (List.Pairwise.filter _ (buildRows_pairwise msgs 0))]
  rw [take_rev_map]
  rw [buildRows_filter_map]
